import Mathlib

/-!
Shallow embedding of the Vercel-to-Discord webhook bridge
(`src/app/api/vercel-webhook/route.ts`).

The route handler is pure control flow around four external effects:
reading environment variables, HMAC computation, the Vercel log-fetch
HTTP call, and the Discord delivery HTTP call.  Each effect outcome is
passed in explicitly, so every function below is a total, executable
Lean function; JavaScript `throw` is modelled by explicit outcome
constructors.  JavaScript strings are modelled as Lean `String`
(characters rather than UTF-16 code units); `undefined` string values
are modelled as `Option String` with `none` for `undefined`.
-/

namespace VercelToDiscord

/-- Truthiness of a JavaScript `string | undefined` value: `undefined`
and the empty string are falsy, every other string is truthy
(used by `if (!VERCEL_TOKEN)` and the `teamId` check). -/
def truthy : Option String → Bool
  | none => false
  | some s => s ≠ ""

/-- JavaScript template-literal interpolation of a `string | undefined`
value: `undefined` interpolates as the text `undefined`. -/
def jsShow (o : Option String) : String := o.getD "undefined"

/-- JavaScript `s.substring(0, n)`: the first `n` characters of `s`
(all of `s` when it is shorter). -/
def strTake (s : String) (n : Nat) : String := String.mk (s.data.take n)

/-- JavaScript `Array.prototype.join("\n")` on a list of strings. -/
def joinNL : List String → String
  | [] => ""
  | [x] => x
  | x :: xs => x ++ "\n" ++ joinNL xs

/-- Whether the first list is an initial segment of the second. -/
def isPrefixList : List Char → List Char → Bool
  | [], _ => true
  | _ :: _, [] => false
  | a :: as, b :: bs => a == b && isPrefixList as bs

/-- Whether `needle` occurs as a contiguous sublist of the second
argument (JavaScript `String.prototype.includes`). -/
def containsSub (needle : List Char) : List Char → Bool
  | [] => isPrefixList needle []
  | c :: rest => isPrefixList needle (c :: rest) || containsSub needle rest

/-- JavaScript `s.toUpperCase()` (ASCII). -/
def jsToUpper (s : String) : String := String.mk (s.data.map Char.toUpper)

/-- JavaScript `s.toLowerCase().includes("error")`. -/
def containsErrorCI (s : String) : Bool :=
  containsSub "error".data (s.data.map Char.toLower)

/-- JavaScript `s.split(".")` on the character level: splits at every
dot, keeping empty segments, with `[""]` for the empty string. -/
def splitDotChars : List Char → List (List Char)
  | [] => [[]]
  | c :: cs =>
    let r := splitDotChars cs
    if c = '.' then [] :: r
    else
      match r with
      | [] => [[c]]
      | x :: xs => (c :: x) :: xs

/-- JavaScript `s.split(".")`. -/
def jsSplitDot (s : String) : List String := (splitDotChars s.data).map String.mk

/-- One element of the JSON array returned by the Vercel deployment
events endpoint: a `type` tag and a text carried either in the nested
`payload.text` or in the top-level `text` field.  A missing or empty
text field is modelled as `""` (both are falsy in JavaScript, and the
code only ever reads these fields through falsiness-sensitive
operators). -/
structure LogEvent where
  type : String
  payloadText : String
  text : String
deriving DecidableEq, Repr

/-- JavaScript `event.payload?.text || event.text`: the payload text
when truthy, otherwise the top-level text. -/
def resolvedText (e : LogEvent) : String :=
  if e.payloadText ≠ "" then e.payloadText else e.text

/-- The error-selection filter of `fetchVercelBuildLogs` (route.ts
line 112): type `stderr`, type `error`, or a `stdout` event whose
payload text contains `error` case-insensitively. -/
def isErrorSelected (e : LogEvent) : Bool :=
  e.type == "stderr" || e.type == "error" ||
    (e.type == "stdout" && containsErrorCI e.payloadText)

/-- The fallback filter of `fetchVercelBuildLogs` (route.ts line 123):
`stdout` or `stderr` events. -/
def isStdLine (e : LogEvent) : Bool :=
  e.type == "stdout" || e.type == "stderr"

/-- `errorLogs` of route.ts lines 111-115: error-selected events,
mapped to their resolved texts, empty texts dropped (`filter(Boolean)`),
newline-joined. -/
def errorLogsOf (data : List LogEvent) : String :=
  joinNL (((data.filter isErrorSelected).map resolvedText).filter (fun t => t ≠ ""))

/-- `allLogs` of route.ts lines 122-127: stdout/stderr events, the last
30 of them (`slice(-30)`), mapped to their resolved texts, empty texts
dropped, newline-joined. -/
def allLogsOf (data : List LogEvent) : String :=
  joinNL ((((data.filter isStdLine).drop ((data.filter isStdLine).length - 30)).map
    resolvedText).filter (fun t => t ≠ ""))

/-- The selection policy of route.ts lines 111-130, before truncation:
the error-selected lines when that join is non-empty, otherwise the
last-30 fallback. -/
def selectLogs (data : List LogEvent) : String :=
  if errorLogsOf data ≠ "" then errorLogsOf data else allLogsOf data

/-- Outcome of the network part of the log fetch: either the `fetch`
or `response.json()` call threw (with the resulting error-message
string), or a response arrived with `ok` flag, status code, and parsed
JSON array of log events. -/
inductive FetchOutcome where
  | thrown (msg : String)
  | resp (ok : Bool) (status : Nat) (data : List LogEvent)
deriving DecidableEq, Repr

/-- The Vercel events URL of route.ts lines 88-90: the `teamId` query
parameter appears only when `VERCEL_TEAM_ID` is truthy. -/
def vercelEventsUrl (teamId : Option String) (deploymentId : String) : String :=
  if truthy teamId then
    "https://api.vercel.com/v3/deployments/" ++ deploymentId ++ "/events?teamId=" ++
      jsShow teamId
  else
    "https://api.vercel.com/v3/deployments/" ++ deploymentId ++ "/events"

/-- `fetchVercelBuildLogs` of route.ts lines 79-136, with the network
outcome passed in.  Returns the placeholder when `VERCEL_TOKEN` is
falsy; the catch-branch placeholder when the network part threw; the
status placeholder on a non-ok response; otherwise the selected logs
truncated by `substring(0, 1500)`, with `No logs available` as the
final `||` fallback. -/
def fetchVercelBuildLogs (token : Option String) (net : FetchOutcome) : String :=
  if !truthy token then
    "Build logs unavailable (VERCEL_TOKEN not configured)"
  else
    match net with
    | .thrown msg => "Error fetching build logs: " ++ msg
    | .resp ok status data =>
      if !ok then
        "Failed to fetch build logs: " ++ toString status
      else
        let errorLogs := errorLogsOf data
        if errorLogs ≠ "" then
          strTake errorLogs 1500
        else
          let allLogs := allLogsOf data
          if strTake allLogs 1500 ≠ "" then strTake allLogs 1500
          else "No logs available"

/-- Modelled from the spec: the `VercelWebhookEvent` type is imported
from `src/types`, which is not among the provided source files.  The
spec (section 3) describes the metadata as a mapping with a fixed key
set; each key may be absent, so the fields are `Option String`
(`none` models a JavaScript `undefined` lookup). -/
structure DeploymentMeta where
  githubCommitRef : Option String
  githubCommitOrg : Option String
  githubCommitRepo : Option String
  githubCommitSha : Option String
  githubCommitMessage : Option String
deriving DecidableEq, Repr

/-- Modelled from the spec: the deployment part of the Inbound Event,
carrying the deployment identifier, name, and metadata mapping used by
`sendDiscordMessageFor`. -/
structure Deployment where
  id : String
  name : String
  meta : DeploymentMeta
deriving DecidableEq, Repr

/-- Modelled from the spec: dashboard and project URLs of the Inbound
Event payload. -/
structure EventLinks where
  deployment : String
  project : String
deriving DecidableEq, Repr

/-- Modelled from the spec: the payload of the Inbound Event. -/
structure EventPayload where
  deployment : Deployment
  links : EventLinks
deriving DecidableEq, Repr

/-- Modelled from the spec: the Inbound Event, a tagged payload with a
`type` field and the deployment payload. -/
structure VercelWebhookEvent where
  id : String
  type : String
  payload : EventPayload
deriving DecidableEq, Repr

/-- One field of the outbound Discord embed.  The value is
`Option String` because the `Branch` and `Commit Message` values are
metadata lookups that may be `undefined` in JavaScript without making
the composition throw. -/
structure MsgField where
  name : String
  value : Option String
deriving DecidableEq, Repr

/-- The embed object of the outbound Discord message (route.ts
lines 195-204). -/
structure DiscordEmbed where
  title : String
  url : String
  description : String
  color : Nat
  fields : List MsgField
deriving DecidableEq, Repr

/-- The GitHub commit URL of route.ts line 149: template-literal
interpolation, so absent metadata interpolates as `undefined`. -/
def githubCommitUrlOf (m : DeploymentMeta) : String :=
  "https://github.com/" ++ jsShow m.githubCommitOrg ++ "/" ++
    jsShow m.githubCommitRepo ++ "/commit/" ++ jsShow m.githubCommitSha

/-- The four fixed fields of route.ts lines 164-181: Project, Branch,
Commit, Commit Message. -/
def baseFields (ev : VercelWebhookEvent) : List MsgField :=
  [{ name := "Project",
     value := some ("[" ++ ev.payload.deployment.name ++ "](" ++
       ev.payload.links.project ++ ")") },
   { name := "Branch",
     value := ev.payload.deployment.meta.githubCommitRef },
   { name := "Commit",
     value := some ("[" ++ jsShow ev.payload.deployment.meta.githubCommitSha ++ "](" ++
       githubCommitUrlOf ev.payload.deployment.meta ++ ")") },
   { name := "Commit Message",
     value := ev.payload.deployment.meta.githubCommitMessage }]

/-- The field list of the composed message (route.ts lines 164-193):
for state `ERROR` or `CANCELED` the build logs are fetched and, when
non-empty (`buildLogs && buildLogs.length > 0`), appended as a fifth
`Build Logs` field wrapped in a fenced code block. -/
def messageFields (ev : VercelWebhookEvent) (state : String) (token : Option String)
    (net : FetchOutcome) : List MsgField :=
  if state == "ERROR" || state == "CANCELED" then
    let buildLogs := fetchVercelBuildLogs token net
    if buildLogs ≠ "" then
      baseFields ev ++ [{ name := "Build Logs", value := some ("```\n" ++ buildLogs ++ "\n```") }]
    else baseFields ev
  else baseFields ev

/-- How a run of `sendDiscordMessageFor` ends: a TypeError thrown
during composition (before the Discord call), an error thrown because
the Discord response was not ok, or normal completion. -/
inductive SendStep where
  | compThrow (msg : String)
  | deliveryThrow (msg : String)
  | sent
deriving DecidableEq, Repr

/-- The Discord HTTP response: ok flag, status code, body text. -/
structure HttpResp where
  ok : Bool
  status : Nat
  text : String
deriving DecidableEq, Repr

/-- Result of a run of `sendDiscordMessageFor`: how many Discord
delivery calls were issued, the composed embed when composition
reached it, and how the run ended. -/
structure SendResult where
  discordCalls : Nat
  message : Option DiscordEmbed
  step : SendStep
deriving DecidableEq, Repr

/-- `sendDiscordMessageFor` of route.ts lines 138-232, with the two
network outcomes passed in.  `state` is the second dot-segment of the
event type uppercased; when the type has no second segment,
`split(".")[1]` is `undefined` and `.toUpperCase()` throws at once
(line 142).  The field list (and with it the log fetch) is built
before the embed; building the title applies `.toUpperCase()` to the
`githubCommitRef` metadata value, which throws when that key is absent
(line 198), before any Discord call.  A non-ok Discord response throws
an error carrying the status and body text (line 226). -/
def sendDiscordMessageFor (token : Option String) (net : FetchOutcome)
    (resp : HttpResp) (ev : VercelWebhookEvent) : SendResult :=
  match (jsSplitDot ev.type).get? 1 with
  | none =>
    { discordCalls := 0, message := none,
      step := .compThrow "TypeError: Cannot read properties of undefined" }
  | some seg =>
    let state := jsToUpper seg
    let fields := messageFields ev state token net
    match ev.payload.deployment.meta.githubCommitRef with
    | none =>
      { discordCalls := 0, message := none,
        step := .compThrow "TypeError: Cannot read properties of undefined" }
    | some gitBranch =>
      let embed : DiscordEmbed :=
        { title := "Deployment of " ++ ev.payload.deployment.name ++ " in " ++
            jsToUpper gitBranch ++ ": " ++ state ++ ".",
          url := ev.payload.links.deployment,
          description := "The deployment for " ++ ev.payload.deployment.name ++
            " is now " ++ state ++ ".",
          color := if state == "SUCCEEDED" then 3066993 else 15158332,
          fields := fields }
      if !resp.ok then
        { discordCalls := 1, message := some embed,
          step := .deliveryThrow ("Discord API returned " ++ toString resp.status ++
            ": " ++ resp.text) }
      else
        { discordCalls := 1, message := some embed, step := .sent }

/-- The process environment of route.ts line 5: each variable is a
`string | undefined`. -/
structure Env where
  webhookIntegrationSecret : Option String
  discordWebhookUrl : Option String
  vercelToken : Option String
  vercelTeamId : Option String
deriving DecidableEq, Repr

/-- How a run of the `POST` handler ends: an error escaped the handler
unhandled (missing configuration, or `JSON.parse` threw outside the
try block), a `Response.json` body with its default 200 status, or a
plain `Response` with an explicit status and body. -/
inductive PostOutcome where
  | unhandled (msg : String)
  | json200 (code : String) (error : String)
  | resp (status : Nat) (body : String)
deriving DecidableEq, Repr

/-- Result of a run of `POST`: how many times the composer-and-delivery
step `sendDiscordMessageFor` was invoked, how many Discord delivery
calls were issued, and the outcome. -/
structure PostResult where
  sendInvocations : Nat
  discordCalls : Nat
  outcome : PostOutcome
deriving DecidableEq, Repr

/-- The JSON body returned on signature mismatch contains an
apostrophe; it is assembled from the character code to keep the source
ASCII-clean. -/
def mismatchError : String :=
  "signature didn" ++ String.singleton (Char.ofNat 39) ++ "t match"

/-- `POST` of route.ts lines 7-73, with the effects passed in:
`hmac body secret` stands for the hex HMAC-SHA1 digest (the handler
only compares its output for string equality, so it is kept abstract);
`sigHeader` is the `x-vercel-signature` header (`none` when absent);
`parsed` is the result of `JSON.parse` on the raw body (`Except.error`
when it throws — note the parse sits before the try block, so that
throw escapes the handler); `net` and `resp` are the outcomes of the
log-fetch and Discord calls.  The `typeof != string` configuration
checks accept any string, including the empty one.  Dispatch runs
`sendDiscordMessageFor` exactly once for the three recognized types
inside a try whose catch returns a 500 with a generic body, and is a
no-op returning 200 for every other type. -/
def POST (env : Env) (hmac : String → String → String) (rawBody : String)
    (sigHeader : Option String) (parsed : Except Unit VercelWebhookEvent)
    (net : FetchOutcome) (resp : HttpResp) : PostResult :=
  match env.webhookIntegrationSecret with
  | none => { sendInvocations := 0, discordCalls := 0,
              outcome := .unhandled "No integration secret found" }
  | some secret =>
    match env.discordWebhookUrl with
    | none => { sendInvocations := 0, discordCalls := 0,
                outcome := .unhandled "No Discord webhook URL found" }
    | some _ =>
      if sigHeader ≠ some (hmac rawBody secret) then
        { sendInvocations := 0, discordCalls := 0,
          outcome := .json200 "invalid_signature" mismatchError }
      else
        match parsed with
        | .error _ =>
          { sendInvocations := 0, discordCalls := 0,
            outcome := .unhandled "SyntaxError: Unexpected token in JSON" }
        | .ok ev =>
          if ev.type == "deployment.succeeded" || ev.type == "deployment.canceled" ||
              ev.type == "deployment.error" then
            let r := sendDiscordMessageFor env.vercelToken net resp ev
            match r.step with
            | .sent =>
              { sendInvocations := 1, discordCalls := r.discordCalls,
                outcome := .resp 200 "Notification sent to Discord." }
            | _ =>
              { sendInvocations := 1, discordCalls := r.discordCalls,
                outcome := .resp 500 "Internal server error." }
          else
            { sendInvocations := 0, discordCalls := 0,
              outcome := .resp 200 "Notification sent to Discord." }

/-- Modelled from the spec: the serverless platform boundary around the
route handler.  The spec (sections 4.2 and 7) states that an error
propagating out of the handler unhandled is surfaced to the caller as a
500-equivalent response, and `Response.json` without an explicit status
responds with 200. -/
def boundaryStatus : PostOutcome → Nat
  | .unhandled _ => 500
  | .json200 _ _ => 200
  | .resp s _ => s

/-- The three recognized deployment-terminal event types of the switch
at route.ts lines 52-55. -/
def recognized (t : String) : Bool :=
  t == "deployment.succeeded" || t == "deployment.canceled" || t == "deployment.error"

/-- Error-level tag as the spec words it: the log line is tagged as
coming from the error stream or the error level. -/
def isErrorLevel (e : LogEvent) : Bool :=
  e.type == "stderr" || e.type == "error"

/-- A standard-output line whose text contains the case-insensitive
substring `error`, as the spec words it (the text of a line is its
resolved text). -/
def isStdoutErrorLine (e : LogEvent) : Bool :=
  e.type == "stdout" && containsErrorCI (resolvedText e)

/-- The selection policy as the specification words it: if any lines
are tagged as error-level, or are standard-output lines containing the
case-insensitive substring `error`, the result is the newline-joined
concatenation of all such lines; otherwise the newline-joined
concatenation of the most recent 30 standard-output/standard-error
lines in their original order.  Written from the claim text, to be
compared with `selectLogs`. -/
def specSelectLogs (data : List LogEvent) : String :=
  let errLines := (data.filter (fun e => isErrorLevel e || isStdoutErrorLine e)).map resolvedText
  if errLines ≠ [] then joinNL errLines
  else
    let stdLines := (data.filter isStdLine).map resolvedText
    joinNL (stdLines.drop (stdLines.length - 30))

/-! Helper lemmas about the string model. -/

theorem string_eq_empty_iff_length (s : String) : s = "" ↔ s.length = 0 := by
  constructor
  · intro h; rw [h]; rfl
  · intro h
    refine String.ext ?_
    have : s.data.length = 0 := h
    simpa using List.length_eq_zero.mp this

theorem joinNL_cons_cons (x y : String) (ys : List String) :
    joinNL (x :: y :: ys) = x ++ "\n" ++ joinNL (y :: ys) := rfl

theorem joinNL_ne_empty_of_head (x : String) (xs : List String) (hx : x ≠ "") :
    joinNL (x :: xs) ≠ "" := by
  have hx0 : 0 < x.length := by
    rcases Nat.eq_zero_or_pos x.length with h0 | h0
    · exact absurd ((string_eq_empty_iff_length x).mpr h0) hx
    · exact h0
  cases xs with
  | nil =>
    simpa [joinNL] using hx
  | cons y ys =>
    intro h
    have hlen : (joinNL (x :: y :: ys)).length = 0 := (string_eq_empty_iff_length _).mp h
    rw [joinNL_cons_cons, String.length_append, String.length_append] at hlen
    omega

theorem joinNL_eq_empty_iff (l : List String) (h : ∀ t ∈ l, t ≠ "") :
    joinNL l = "" ↔ l = [] := by
  cases l with
  | nil => simp [joinNL]
  | cons x xs =>
    constructor
    · intro hj
      exact absurd hj (joinNL_ne_empty_of_head x xs (h x (List.mem_cons_self x xs)))
    · intro hc
      exact absurd hc (List.cons_ne_nil x xs)

theorem sendDiscordCalls_le_one (token : Option String) (net : FetchOutcome)
    (resp : HttpResp) (ev : VercelWebhookEvent) :
    (sendDiscordMessageFor token net resp ev).discordCalls ≤ 1 := by
  unfold sendDiscordMessageFor
  split
  · exact Nat.zero_le 1
  · split
    · exact Nat.zero_le 1
    · split <;> exact Nat.le_refl 1

/-- C1: a request whose HMAC hex digest of the raw body under the
configured secret differs from the `x-vercel-signature` header value
triggers no composer-and-delivery invocation and no Discord call, and
the handler answers with the `Response.json` body
`code = invalid_signature, error = signature didn't match`, whose
transport status is 200. -/
theorem c1_invalid_signature (env : Env) (secret durl : String)
    (hs : env.webhookIntegrationSecret = some secret)
    (hd : env.discordWebhookUrl = some durl)
    (hmac : String → String → String) (rawBody : String) (sigHeader : Option String)
    (parsed : Except Unit VercelWebhookEvent) (net : FetchOutcome) (resp : HttpResp)
    (hmis : sigHeader ≠ some (hmac rawBody secret)) :
    POST env hmac rawBody sigHeader parsed net resp =
      { sendInvocations := 0, discordCalls := 0,
        outcome := .json200 "invalid_signature" mismatchError } ∧
    boundaryStatus (POST env hmac rawBody sigHeader parsed net resp).outcome = 200 := by
  simp [POST, hs, hd, hmis, boundaryStatus]

theorem c1_invalid_signature_witness :
    (Env.mk (some "sec") (some "hook") none none).webhookIntegrationSecret = some "sec" ∧
    (some "bbbb" : Option String) ≠ some ((fun _ _ => "aaaa") "body" "sec") ∧
    POST (Env.mk (some "sec") (some "hook") none none) (fun _ _ => "aaaa") "body"
        (some "bbbb") (Except.error ()) (FetchOutcome.resp true 200 [])
        (HttpResp.mk true 204 "") =
      { sendInvocations := 0, discordCalls := 0,
        outcome := .json200 "invalid_signature" mismatchError } :=
  ⟨rfl, by decide,
    (c1_invalid_signature (Env.mk (some "sec") (some "hook") none none) "sec" "hook"
      rfl rfl (fun _ _ => "aaaa") "body" (some "bbbb") (Except.error ())
      (FetchOutcome.resp true 200 []) (HttpResp.mk true 204 "") (by decide)).1⟩

/-- C2: for a configured environment, matching signature and parsed
event, the composer-and-delivery step `sendDiscordMessageFor` is
invoked exactly once when the type is one of the three recognized
deployment-terminal types (with at most one Discord call), and for any
other type it is never invoked, no Discord call happens, and the
handler still returns the 200 success response. -/
theorem c2_dispatch (env : Env) (secret durl : String)
    (hs : env.webhookIntegrationSecret = some secret)
    (hd : env.discordWebhookUrl = some durl)
    (hmac : String → String → String) (rawBody : String)
    (ev : VercelWebhookEvent) (net : FetchOutcome) (resp : HttpResp) :
    (recognized ev.type = true →
      (POST env hmac rawBody (some (hmac rawBody secret)) (.ok ev) net resp).sendInvocations = 1 ∧
      (POST env hmac rawBody (some (hmac rawBody secret)) (.ok ev) net resp).discordCalls ≤ 1) ∧
    (recognized ev.type = false →
      POST env hmac rawBody (some (hmac rawBody secret)) (.ok ev) net resp =
        { sendInvocations := 0, discordCalls := 0,
          outcome := .resp 200 "Notification sent to Discord." }) := by
  constructor
  · intro hrec
    have hrec' : (ev.type == "deployment.succeeded" || ev.type == "deployment.canceled" ||
        ev.type == "deployment.error") = true := hrec
    simp only [POST, hs, hd, ne_eq, not_true_eq_false, if_false, hrec', if_true]
    constructor
    · split <;> rfl
    · have := sendDiscordCalls_le_one env.vercelToken net resp ev
      split <;> exact this
  · intro hrec
    have hrec' : (ev.type == "deployment.succeeded" || ev.type == "deployment.canceled" ||
        ev.type == "deployment.error") = false := hrec
    simp [POST, hs, hd, hrec']

theorem c2_dispatch_witness :
    recognized "deployment.ping" = false ∧
    POST (Env.mk (some "sec") (some "hook") none none) (fun _ _ => "aaaa") "body"
        (some ((fun _ _ => "aaaa") "body" "sec"))
        (Except.ok (VercelWebhookEvent.mk "evt1" "deployment.ping"
          (EventPayload.mk (Deployment.mk "dpl1" "proj" (DeploymentMeta.mk (some "main")
            (some "org") (some "repo") (some "sha") (some "msg"))) (EventLinks.mk "du" "pu"))))
        (FetchOutcome.resp true 200 []) (HttpResp.mk true 204 "") =
      { sendInvocations := 0, discordCalls := 0,
        outcome := .resp 200 "Notification sent to Discord." } :=
  ⟨by decide,
    (c2_dispatch (Env.mk (some "sec") (some "hook") none none) "sec" "hook" rfl rfl
      (fun _ _ => "aaaa") "body"
      (VercelWebhookEvent.mk "evt1" "deployment.ping"
        (EventPayload.mk (Deployment.mk "dpl1" "proj" (DeploymentMeta.mk (some "main")
          (some "org") (some "repo") (some "sha") (some "msg"))) (EventLinks.mk "du" "pu")))
      (FetchOutcome.resp true 200 []) (HttpResp.mk true 204 "")).2 (by decide)⟩

/-- C3: with a matching signature, a raw body on which `JSON.parse`
throws makes the run end in the unhandled-error outcome (the parse sits
before the try block), which the platform boundary surfaces as a
500-equivalent response, and the composer-and-delivery step is never
invoked. -/
theorem c3_parse_failure (env : Env) (secret durl : String)
    (hs : env.webhookIntegrationSecret = some secret)
    (hd : env.discordWebhookUrl = some durl)
    (hmac : String → String → String) (rawBody : String)
    (net : FetchOutcome) (resp : HttpResp) :
    (POST env hmac rawBody (some (hmac rawBody secret)) (.error ()) net resp).sendInvocations = 0 ∧
    (POST env hmac rawBody (some (hmac rawBody secret)) (.error ()) net resp).discordCalls = 0 ∧
    boundaryStatus
      (POST env hmac rawBody (some (hmac rawBody secret)) (.error ()) net resp).outcome = 500 := by
  simp [POST, hs, hd, boundaryStatus]

theorem c3_parse_failure_witness :
    (Env.mk (some "sec") (some "hook") none none).webhookIntegrationSecret = some "sec" ∧
    (POST (Env.mk (some "sec") (some "hook") none none) (fun _ _ => "aaaa") "not json"
        (some ((fun _ _ => "aaaa") "not json" "sec")) (Except.error ())
        (FetchOutcome.resp true 200 []) (HttpResp.mk true 204 "")).discordCalls = 0 ∧
    boundaryStatus
      (POST (Env.mk (some "sec") (some "hook") none none) (fun _ _ => "aaaa") "not json"
        (some ((fun _ _ => "aaaa") "not json" "sec")) (Except.error ())
        (FetchOutcome.resp true 200 []) (HttpResp.mk true 204 "")).outcome = 500 :=
  ⟨rfl,
    (c3_parse_failure (Env.mk (some "sec") (some "hook") none none) "sec" "hook" rfl rfl
      (fun _ _ => "aaaa") "not json" (FetchOutcome.resp true 200 [])
      (HttpResp.mk true 204 "")).2.1,
    (c3_parse_failure (Env.mk (some "sec") (some "hook") none none) "sec" "hook" rfl rfl
      (fun _ _ => "aaaa") "not json" (FetchOutcome.resp true 200 [])
      (HttpResp.mk true 204 "")).2.2⟩

theorem recognized_cases (t : String) (h : recognized t = true) :
    t = "deployment.succeeded" ∨ t = "deployment.canceled" ∨ t = "deployment.error" := by
  simpa [recognized, or_assoc] using h

theorem recognized_split (t : String) (h : recognized t = true) :
    ∃ seg, (jsSplitDot t).get? 1 = some seg := by
  rcases recognized_cases t h with h1 | h1 | h1 <;> rw [h1]
  · exact ⟨"succeeded", by decide⟩
  · exact ⟨"canceled", by decide⟩
  · exact ⟨"error", by decide⟩

/-- C4: for a recognized terminal event that reaches the delivery call
(branch metadata present), a non-ok Discord response makes
`sendDiscordMessageFor` throw an error carrying the response status and
body text after exactly one Discord call, and the handler converts that
into the generic 500 response — the overall run issues exactly one
Discord call, so no retry happens. -/
theorem c4_delivery_failure (env : Env) (secret durl : String)
    (hs : env.webhookIntegrationSecret = some secret)
    (hd : env.discordWebhookUrl = some durl)
    (hmac : String → String → String) (rawBody : String)
    (ev : VercelWebhookEvent) (branch : String) (net : FetchOutcome) (resp : HttpResp)
    (hrec : recognized ev.type = true)
    (href : ev.payload.deployment.meta.githubCommitRef = some branch)
    (hok : resp.ok = false) :
    (sendDiscordMessageFor env.vercelToken net resp ev).step =
      .deliveryThrow ("Discord API returned " ++ toString resp.status ++ ": " ++ resp.text) ∧
    (sendDiscordMessageFor env.vercelToken net resp ev).discordCalls = 1 ∧
    POST env hmac rawBody (some (hmac rawBody secret)) (.ok ev) net resp =
      { sendInvocations := 1, discordCalls := 1,
        outcome := .resp 500 "Internal server error." } := by
  obtain ⟨seg, hsplit⟩ := recognized_split ev.type hrec
  have hsend : (sendDiscordMessageFor env.vercelToken net resp ev).step =
      .deliveryThrow ("Discord API returned " ++ toString resp.status ++ ": " ++ resp.text) ∧
      (sendDiscordMessageFor env.vercelToken net resp ev).discordCalls = 1 := by
    unfold sendDiscordMessageFor
    rw [hsplit, href]
    simp [hok]
  refine ⟨hsend.1, hsend.2, ?_⟩
  have hrec' : (ev.type == "deployment.succeeded" || ev.type == "deployment.canceled" ||
      ev.type == "deployment.error") = true := hrec
  simp only [POST, hs, hd, ne_eq, not_true_eq_false, if_false, hrec', if_true]
  rw [hsend.1]
  simp [hsend.2]

theorem c4_delivery_failure_witness :
    recognized "deployment.succeeded" = true ∧
    POST (Env.mk (some "sec") (some "hook") none none) (fun _ _ => "aaaa") "body"
        (some ((fun _ _ => "aaaa") "body" "sec"))
        (Except.ok (VercelWebhookEvent.mk "evt1" "deployment.succeeded"
          (EventPayload.mk (Deployment.mk "dpl1" "proj" (DeploymentMeta.mk (some "main")
            (some "org") (some "repo") (some "sha") (some "msg"))) (EventLinks.mk "du" "pu"))))
        (FetchOutcome.resp true 200 []) (HttpResp.mk false 400 "Bad Request") =
      { sendInvocations := 1, discordCalls := 1,
        outcome := .resp 500 "Internal server error." } :=
  ⟨by decide,
    (c4_delivery_failure (Env.mk (some "sec") (some "hook") none none) "sec" "hook" rfl rfl
      (fun _ _ => "aaaa") "body"
      (VercelWebhookEvent.mk "evt1" "deployment.succeeded"
        (EventPayload.mk (Deployment.mk "dpl1" "proj" (DeploymentMeta.mk (some "main")
          (some "org") (some "repo") (some "sha") (some "msg"))) (EventLinks.mk "du" "pu")))
      "main" (FetchOutcome.resp true 200 []) (HttpResp.mk false 400 "Bad Request")
      (by decide) rfl rfl).2.2⟩

/-- C9: for a recognized terminal event whose metadata omits the
`githubCommitRef` key, composition throws a TypeError while building
the title (before any Discord call), so the handler returns the 500
response and no Discord delivery call is made. -/
theorem c9_missing_branch (env : Env) (secret durl : String)
    (hs : env.webhookIntegrationSecret = some secret)
    (hd : env.discordWebhookUrl = some durl)
    (hmac : String → String → String) (rawBody : String)
    (ev : VercelWebhookEvent) (net : FetchOutcome) (resp : HttpResp)
    (hrec : recognized ev.type = true)
    (href : ev.payload.deployment.meta.githubCommitRef = none) :
    sendDiscordMessageFor env.vercelToken net resp ev =
      { discordCalls := 0, message := none,
        step := .compThrow "TypeError: Cannot read properties of undefined" } ∧
    POST env hmac rawBody (some (hmac rawBody secret)) (.ok ev) net resp =
      { sendInvocations := 1, discordCalls := 0,
        outcome := .resp 500 "Internal server error." } := by
  obtain ⟨seg, hsplit⟩ := recognized_split ev.type hrec
  have hsend : sendDiscordMessageFor env.vercelToken net resp ev =
      { discordCalls := 0, message := none,
        step := .compThrow "TypeError: Cannot read properties of undefined" } := by
    unfold sendDiscordMessageFor
    rw [hsplit, href]
  refine ⟨hsend, ?_⟩
  have hrec' : (ev.type == "deployment.succeeded" || ev.type == "deployment.canceled" ||
      ev.type == "deployment.error") = true := hrec
  simp only [POST, hs, hd, ne_eq, not_true_eq_false, if_false, hrec', if_true]
  rw [hsend]

theorem c9_missing_branch_witness :
    recognized "deployment.error" = true ∧
    POST (Env.mk (some "sec") (some "hook") none none) (fun _ _ => "aaaa") "body"
        (some ((fun _ _ => "aaaa") "body" "sec"))
        (Except.ok (VercelWebhookEvent.mk "evt1" "deployment.error"
          (EventPayload.mk (Deployment.mk "dpl1" "proj" (DeploymentMeta.mk none
            (some "org") (some "repo") (some "sha") (some "msg"))) (EventLinks.mk "du" "pu"))))
        (FetchOutcome.resp true 200 []) (HttpResp.mk true 204 "") =
      { sendInvocations := 1, discordCalls := 0,
        outcome := .resp 500 "Internal server error." } :=
  ⟨by decide,
    (c9_missing_branch (Env.mk (some "sec") (some "hook") none none) "sec" "hook" rfl rfl
      (fun _ _ => "aaaa") "body"
      (VercelWebhookEvent.mk "evt1" "deployment.error"
        (EventPayload.mk (Deployment.mk "dpl1" "proj" (DeploymentMeta.mk none
          (some "org") (some "repo") (some "sha") (some "msg"))) (EventLinks.mk "du" "pu")))
      (FetchOutcome.resp true 200 []) (HttpResp.mk true 204 "") (by decide) rfl).2⟩

theorem string_mk_eq_empty_iff (l : List Char) : String.mk l = "" ↔ l = [] := by
  rw [string_eq_empty_iff_length, String.length_eq_list_length, List.length_eq_zero]

theorem strTake_ne_empty (s : String) (n : Nat) (hs : s ≠ "") (hn : 0 < n) :
    strTake s n ≠ "" := by
  rw [strTake, Ne, string_mk_eq_empty_iff, List.take_eq_nil_iff]
  rintro (h | h)
  · exact absurd h (Nat.pos_iff_ne_zero.mp hn)
  · exact hs (String.ext h)

theorem strTake_length_le (s : String) (n : Nat) : (strTake s n).length ≤ n := by
  rw [strTake, String.length_eq_list_length]
  exact (List.length_take n s.data).le.trans (Nat.min_le_left n s.data.length)

theorem append_ne_empty_of_left (a b : String) (ha : a ≠ "") : a ++ b ≠ "" := by
  intro h
  have h0 : (a ++ b).length = 0 := (string_eq_empty_iff_length _).mp h
  rw [String.length_append] at h0
  exact ha ((string_eq_empty_iff_length a).mpr (by omega))

/-- C5: the build-log fetch is a total function that never raises: a
falsy `VERCEL_TOKEN` yields the configuration placeholder, a thrown
network or parse error yields the catch placeholder carrying the error
message, and a non-ok response yields the status placeholder — each a
human-readable description of the failure rather than an abort. -/
theorem c5_fetch_degrades (token : Option String) (net : FetchOutcome) :
    (truthy token = false →
      fetchVercelBuildLogs token net = "Build logs unavailable (VERCEL_TOKEN not configured)") ∧
    (∀ msg, truthy token = true → net = .thrown msg →
      fetchVercelBuildLogs token net = "Error fetching build logs: " ++ msg) ∧
    (∀ status data, truthy token = true → net = .resp false status data →
      fetchVercelBuildLogs token net = "Failed to fetch build logs: " ++ toString status) := by
  refine ⟨fun ht => by simp [fetchVercelBuildLogs, ht], fun msg ht hn => ?_, fun status data ht hn => ?_⟩
  · subst hn; simp [fetchVercelBuildLogs, ht]
  · subst hn; simp [fetchVercelBuildLogs, ht]

theorem c5_fetch_degrades_witness :
    truthy (some "tok") = true ∧
    fetchVercelBuildLogs (some "tok") (.thrown "socket hang up") =
      "Error fetching build logs: " ++ "socket hang up" ∧
    fetchVercelBuildLogs none (.resp false 403 []) =
      "Build logs unavailable (VERCEL_TOKEN not configured)" :=
  ⟨by decide,
    (c5_fetch_degrades (some "tok") (.thrown "socket hang up")).2.1 "socket hang up"
      (by decide) rfl,
    (c5_fetch_degrades none (.resp false 403 [])).1 (by decide)⟩

/-- C7 counterexample: the catch branch of the build-log fetch does not
truncate — with a 1500-character error message the produced text is
1527 characters long, so not every produced log text has length at
most 1500. -/
theorem c7_counterexample :
    1500 < (fetchVercelBuildLogs (some "tok")
      (.thrown (String.mk (List.replicate 1500 'a')))).length := by
  have h1 : fetchVercelBuildLogs (some "tok")
      (.thrown (String.mk (List.replicate 1500 'a'))) =
      "Error fetching build logs: " ++ String.mk (List.replicate 1500 'a') := by
    simp [fetchVercelBuildLogs, truthy]
  have h2 : ("Error fetching build logs: " : String).length = 27 := by decide
  rw [h1, String.length_append, h2, String.length_eq_list_length, List.length_replicate]
  omega

theorem fetch_not_configured (token : Option String) (net : FetchOutcome)
    (ht : truthy token = false) :
    fetchVercelBuildLogs token net =
      "Build logs unavailable (VERCEL_TOKEN not configured)" := by
  unfold fetchVercelBuildLogs
  rw [ht]
  rfl

theorem fetch_thrown_eq (token : Option String) (msg : String)
    (ht : truthy token = true) :
    fetchVercelBuildLogs token (.thrown msg) = "Error fetching build logs: " ++ msg := by
  unfold fetchVercelBuildLogs
  rw [ht]
  rfl

theorem fetch_not_ok_eq (token : Option String) (status : Nat) (data : List LogEvent)
    (ht : truthy token = true) :
    fetchVercelBuildLogs token (.resp false status data) =
      "Failed to fetch build logs: " ++ toString status := by
  unfold fetchVercelBuildLogs
  rw [ht]
  rfl

theorem fetch_ok_eq (token : Option String) (status : Nat) (data : List LogEvent)
    (ht : truthy token = true) :
    fetchVercelBuildLogs token (.resp true status data) =
      (if errorLogsOf data ≠ "" then strTake (errorLogsOf data) 1500
       else if strTake (allLogsOf data) 1500 ≠ "" then strTake (allLogsOf data) 1500
       else "No logs available") := by
  unfold fetchVercelBuildLogs
  rw [ht]
  rfl

/-- C7 amended: every log text produced from an ok response (the
selected log lines or the `No logs available` fallback, for any token
configuration) has length at most 1500; the failure placeholders are
returned without truncation. -/
theorem c7_truncation (token : Option String) (status : Nat) (data : List LogEvent) :
    (fetchVercelBuildLogs token (.resp true status data)).length ≤ 1500 := by
  cases ht : truthy token with
  | false =>
    rw [fetch_not_configured token _ ht]
    decide
  | true =>
    rw [fetch_ok_eq token status data ht]
    split
    · exact strTake_length_le _ _
    · split
      · exact strTake_length_le _ _
      · decide

/-- C10: the build-log fetch returns a non-empty string on every input,
and consequently for derived status `ERROR` or `CANCELED` the composed
field list always carries the `Build Logs` field as its fifth entry. -/
theorem c10_logs_nonempty :
    (∀ token net, fetchVercelBuildLogs token net ≠ "") ∧
    (∀ ev state token net, (state = "ERROR" ∨ state = "CANCELED") →
      (messageFields ev state token net).map MsgField.name =
        ["Project", "Branch", "Commit", "Commit Message", "Build Logs"]) := by
  have hne : ∀ token net, fetchVercelBuildLogs token net ≠ "" := by
    intro token net
    cases ht : truthy token with
    | false =>
      rw [fetch_not_configured token net ht]
      decide
    | true =>
      cases net with
      | thrown msg =>
        rw [fetch_thrown_eq token msg ht]
        exact append_ne_empty_of_left _ _ (by decide)
      | resp ok status data =>
        cases ok with
        | false =>
          rw [fetch_not_ok_eq token status data ht]
          exact append_ne_empty_of_left _ _ (by decide)
        | true =>
          rw [fetch_ok_eq token status data ht]
          split
          · exact strTake_ne_empty _ _ (by assumption) (by omega)
          · split
            · assumption
            · decide
  refine ⟨hne, fun ev state token net hstate => ?_⟩
  have hcond : (state == "ERROR" || state == "CANCELED") = true := by
    rcases hstate with h | h <;> subst h <;> decide
  simp [messageFields, hcond, hne token net, baseFields]

theorem c10_logs_nonempty_witness :
    (("ERROR" : String) = "ERROR" ∨ ("ERROR" : String) = "CANCELED") ∧
    (messageFields
      (VercelWebhookEvent.mk "evt1" "deployment.error"
        (EventPayload.mk (Deployment.mk "dpl1" "proj" (DeploymentMeta.mk (some "main")
          (some "org") (some "repo") (some "sha") (some "msg"))) (EventLinks.mk "du" "pu")))
      "ERROR" none (FetchOutcome.resp true 200 [])).map MsgField.name =
      ["Project", "Branch", "Commit", "Commit Message", "Build Logs"] :=
  ⟨Or.inl rfl,
    c10_logs_nonempty.2
      (VercelWebhookEvent.mk "evt1" "deployment.error"
        (EventPayload.mk (Deployment.mk "dpl1" "proj" (DeploymentMeta.mk (some "main")
          (some "org") (some "repo") (some "sha") (some "msg"))) (EventLinks.mk "du" "pu")))
      "ERROR" none (FetchOutcome.resp true 200 []) (Or.inl rfl)⟩

/-- C8: the `Build Logs` field appears in the composed field list if
and only if the derived status is `ERROR` or `CANCELED` and the
fetched/placeholder log text is non-empty; when present its value is
the log text wrapped in the fixed fenced-code delimiter; and for
status `SUCCEEDED` the list is exactly the four fixed fields with no
`Build Logs` field. -/
theorem c8_build_logs_field (ev : VercelWebhookEvent) (state : String)
    (token : Option String) (net : FetchOutcome) :
    ((messageFields ev state token net).any (fun f => f.name == "Build Logs") = true ↔
      ((state = "ERROR" ∨ state = "CANCELED") ∧ fetchVercelBuildLogs token net ≠ "")) ∧
    (∀ f ∈ messageFields ev state token net, f.name = "Build Logs" →
      f.value = some ("```\n" ++ fetchVercelBuildLogs token net ++ "\n```")) ∧
    (state = "SUCCEEDED" →
      (messageFields ev state token net).map MsgField.name =
        ["Project", "Branch", "Commit", "Commit Message"]) := by
  have hbase_any : (baseFields ev).any (fun f => f.name == "Build Logs") = false := rfl
  have hbase_name : ∀ f ∈ baseFields ev, f.name ≠ "Build Logs" := by
    intro f hf
    simp only [baseFields, List.mem_cons, List.not_mem_nil, or_false] at hf
    rcases hf with rfl | rfl | rfl | rfl <;> intro hn <;> simp at hn
  by_cases hsc : (state == "ERROR" || state == "CANCELED") = true
  · have hstate12 : state = "ERROR" ∨ state = "CANCELED" := by simpa using hsc
    have hnotsucc : state ≠ "SUCCEEDED" := by
      rcases hstate12 with rfl | rfl <;> decide
    by_cases hbl : fetchVercelBuildLogs token net = ""
    · have hmf : messageFields ev state token net = baseFields ev := by
        unfold messageFields
        rw [if_pos hsc]
        simp [hbl]
      rw [hmf]
      refine ⟨?_, ?_, ?_⟩
      · simp [hbase_any, hbl]
      · intro f hf hname
        exact absurd hname (hbase_name f hf)
      · intro hst
        exact absurd hst hnotsucc
    · have hmf : messageFields ev state token net = baseFields ev ++
          [⟨"Build Logs", some ("```\n" ++ fetchVercelBuildLogs token net ++ "\n```")⟩] := by
        unfold messageFields
        rw [if_pos hsc]
        simp [hbl]
      rw [hmf]
      refine ⟨?_, ?_, ?_⟩
      · constructor
        · intro _
          exact ⟨hstate12, hbl⟩
        · intro _
          simp [List.any_append, hbase_any]
      · intro f hf hname
        rcases List.mem_append.mp hf with hb | hb
        · exact absurd hname (hbase_name f hb)
        · rw [List.mem_singleton.mp hb]
      · intro hst
        exact absurd hst hnotsucc
  · have hnot12 : ¬ (state = "ERROR" ∨ state = "CANCELED") := by
      intro hor
      apply hsc
      rcases hor with rfl | rfl <;> decide
    have hmf : messageFields ev state token net = baseFields ev := by
      unfold messageFields
      rw [if_neg hsc]
    rw [hmf]
    refine ⟨?_, ?_, ?_⟩
    · simp [hbase_any, hnot12]
    · intro f hf hname
      exact absurd hname (hbase_name f hf)
    · intro _
      rfl

theorem c8_build_logs_field_witness :
    ("SUCCEEDED" : String) = "SUCCEEDED" ∧
    (messageFields
      (VercelWebhookEvent.mk "evt1" "deployment.succeeded"
        (EventPayload.mk (Deployment.mk "dpl1" "proj" (DeploymentMeta.mk (some "main")
          (some "org") (some "repo") (some "sha") (some "msg"))) (EventLinks.mk "du" "pu")))
      "SUCCEEDED" none (FetchOutcome.resp true 200 [])).map MsgField.name =
      ["Project", "Branch", "Commit", "Commit Message"] :=
  ⟨rfl,
    (c8_build_logs_field
      (VercelWebhookEvent.mk "evt1" "deployment.succeeded"
        (EventPayload.mk (Deployment.mk "dpl1" "proj" (DeploymentMeta.mk (some "main")
          (some "org") (some "repo") (some "sha") (some "msg"))) (EventLinks.mk "du" "pu")))
      "SUCCEEDED" none (FetchOutcome.resp true 200 [])).2.2 rfl⟩

/-- C6 counterexample: the selection policy as worded does not hold on
every list of fetched log events.  On a stdout event whose text lives
only in the top-level `text` field and reads `Error: boom`, the code
(route.ts line 112) tests only `payload.text` for the substring, so it
does not error-select the line and instead falls back to joining both
lines, while the worded policy selects the error-containing line
alone. -/
theorem c6_counterexample :
    selectLogs [LogEvent.mk "stdout" "" "Error: boom", LogEvent.mk "stdout" "ok line" ""] ≠
      specSelectLogs [LogEvent.mk "stdout" "" "Error: boom",
        LogEvent.mk "stdout" "ok line" ""] := by
  decide

/-- C6 amended: on any fetched log list whose events all carry their
text in a non-empty `payload.text` field (the shape the log API
normally produces: a line per event), the selection implemented at
route.ts lines 111-130 coincides with the policy as the specification
words it: all error-level or error-containing stdout lines when any
exist, otherwise the most recent 30 stdout/stderr lines in original
order, newline-joined.  For events whose text sits only in the
top-level `text` field, the code's error-containment test consults
only `payload.text` and its joins drop empty texts, so the selection
can differ from the worded policy (see the counterexample). -/
theorem c6_selection (data : List LogEvent) (h : ∀ e ∈ data, e.payloadText ≠ "") :
    selectLogs data = specSelectLogs data := by
  have hres : ∀ e ∈ data, resolvedText e = e.payloadText := by
    intro e he
    simp [resolvedText, h e he]
  have htne : ∀ (l : List LogEvent), (∀ e ∈ l, e ∈ data) →
      ∀ t ∈ l.map resolvedText, t ≠ "" := by
    intro l hl t ht
    rcases List.mem_map.mp ht with ⟨e, he, rfl⟩
    rw [hres e (hl e he)]
    exact h e (hl e he)
  have hfid : ∀ (l : List LogEvent), (∀ e ∈ l, e ∈ data) →
      (l.map resolvedText).filter (fun t => t ≠ "") = l.map resolvedText := by
    intro l hl
    refine List.filter_eq_self.mpr ?_
    intro t ht
    simpa using htne l hl t ht
  have hfe : data.filter isErrorSelected =
      data.filter (fun e => isErrorLevel e || isStdoutErrorLine e) := by
    refine List.filter_congr ?_
    intro e he
    unfold isErrorSelected isErrorLevel isStdoutErrorLine
    rw [hres e he]
  have herr : errorLogsOf data =
      joinNL ((data.filter (fun e => isErrorLevel e || isStdoutErrorLine e)).map resolvedText) := by
    rw [errorLogsOf, hfe, hfid _ (fun e he => (List.mem_filter.mp he).1)]
  have hsub30 : ∀ e ∈ (data.filter isStdLine).drop ((data.filter isStdLine).length - 30),
      e ∈ data :=
    fun e he => (List.mem_filter.mp (List.mem_of_mem_drop he)).1
  have hall : allLogsOf data =
      joinNL (((data.filter isStdLine).map resolvedText).drop
        (((data.filter isStdLine).map resolvedText).length - 30)) := by
    rw [allLogsOf, hfid _ hsub30, List.map_drop, List.length_map]
  simp only [selectLogs, specSelectLogs]
  rw [herr, hall]
  by_cases hc : (data.filter (fun e => isErrorLevel e || isStdoutErrorLine e)).map resolvedText = []
  · rw [hc]
    simp [joinNL]
  · have hjne : joinNL ((data.filter
        (fun e => isErrorLevel e || isStdoutErrorLine e)).map resolvedText) ≠ "" := by
      rw [Ne, joinNL_eq_empty_iff _ (htne _ (fun e he => (List.mem_filter.mp he).1))]
      exact hc
    rw [if_pos hjne, if_pos hc]

theorem c6_selection_witness :
    (∀ e ∈ [LogEvent.mk "stdout" "compiling" "", LogEvent.mk "error" "boom" "",
        LogEvent.mk "stdout" "done" ""], e.payloadText ≠ "") ∧
    selectLogs [LogEvent.mk "stdout" "compiling" "", LogEvent.mk "error" "boom" "",
        LogEvent.mk "stdout" "done" ""] =
      specSelectLogs [LogEvent.mk "stdout" "compiling" "", LogEvent.mk "error" "boom" "",
        LogEvent.mk "stdout" "done" ""] :=
  ⟨by decide,
    c6_selection [LogEvent.mk "stdout" "compiling" "", LogEvent.mk "error" "boom" "",
      LogEvent.mk "stdout" "done" ""] (by decide)⟩

end VercelToDiscord
